import Mathlib

/-!
Verification of the Multi-Driver Telemetry Comparison Renderer
(`static/scripts.js` of the F1_Telementry repository).

The JavaScript source is shallowly embedded below.  Machine numbers are
modelled by `Int`/`Nat`; a channel value that is `null`/`undefined` in
JavaScript is `Option.none`; the stable ECMAScript `Array.prototype.sort`
is `List.mergeSort`; `for (const k in obj)` over an object whose keys are
integer strings enumerates the keys in ascending numeric order, which is
modelled by sorting the deduplicated key list.  Purely cosmetic numeric
style constants (line width 2.5, opacity 0.9) and the hovertemplate string
are omitted from the `Trace` record; no claim concerns them.
-/

namespace F1Telemetry

/-- The four telemetry channels, `const metrics = ['throttle','brake','speed','n_gear']`. -/
inductive Metric where
  | throttle
  | brake
  | speed
  | n_gear
deriving DecidableEq, Repr

/-- The metric key string used in the source. -/
def metricName : Metric → String
  | .throttle => "throttle"
  | .brake => "brake"
  | .speed => "speed"
  | .n_gear => "n_gear"

/-- The metric list, in source order. -/
def metrics : List Metric := [.throttle, .brake, .speed, .n_gear]

/-- One telemetry observation as consumed by `plotTelemetry`: a driver
number, a millisecond timestamp `date_ms`, and one possibly-absent value
per channel (`null`/`undefined` is `none`). -/
structure TelemetrySample where
  driver_number : Nat
  date_ms : Int
  throttle : Option Int := none
  brake : Option Int := none
  speed : Option Int := none
  n_gear : Option Int := none
deriving DecidableEq, Repr

/-- Dynamic property access `d[metric]`. -/
def getMetric : Metric → TelemetrySample → Option Int
  | .throttle, s => s.throttle
  | .brake, s => s.brake
  | .speed, s => s.speed
  | .n_gear, s => s.n_gear

/-- `const colors = [...]` (9 entries). -/
def colors : List String :=
  ["#FF4500", "#1E90FF", "#32CD32", "#9400D3", "#FFD700",
   "#ADFF2F", "#FF1493", "#00FFFF", "#FF8C00"]

/-- `const dash_styles = [...]` (9 entries). -/
def dash_styles : List String :=
  ["solid", "dash", "dot", "dashdot", "longdash",
   "longdashdot", "solid", "dash", "dot"]

/-- `capitalizeFirstLetter`: empty (falsy) strings map to the empty string,
otherwise the first character is upper-cased. -/
def capitalizeFirstLetter (s : String) : String :=
  match s.data with
  | [] => ""
  | c :: cs => String.mk (Char.toUpper c :: cs)

/-- JavaScript `replace('_', ' ')` with a string pattern replaces the
first occurrence only. -/
def replaceUnderscoreFirst : List Char → List Char
  | [] => []
  | c :: cs => if c = '_' then ' ' :: cs else c :: replaceUnderscoreFirst cs

/-- `metric.replace('_', ' ')` then `capitalizeFirstLetter`. -/
def cleanMetricName (m : Metric) : String :=
  capitalizeFirstLetter (String.mk (replaceUnderscoreFirst (metricName m).data))

/-- The y-axis title ternary of the source. -/
def yaxisTitleFor (m : Metric) : String :=
  if m = .n_gear then "Gear"
  else
    cleanMetricName m ++ " " ++
      (if m = .speed then "(km/h)"
       else if m = .throttle ∨ m = .brake then "(%)" else "")

/-- Comparator `(a, b) => a.date_ms - b.date_ms` as a `le` relation. -/
def dateLe (a b : TelemetrySample) : Prop := a.date_ms ≤ b.date_ms

instance : DecidableRel dateLe := fun a b => Int.decLe a.date_ms b.date_ms

instance : IsTotal TelemetrySample dateLe := ⟨fun a b => Int.le_total a.date_ms b.date_ms⟩

instance : IsTrans TelemetrySample dateLe := ⟨fun _ _ _ => Int.le_trans⟩

/-- `driverData.sort((a, b) => a.date_ms - b.date_ms)`: ECMAScript sort is
stable; it is modelled by the stable `List.insertionSort`. -/
def sortByDate (l : List TelemetrySample) : List TelemetrySample :=
  l.insertionSort dateLe

/-- The samples that pass `selectedDrivers.includes(d.driver_number)`. -/
def filteredData (data : List TelemetrySample) (sel : List Nat) :
    List TelemetrySample :=
  data.filter (fun d => decide (d.driver_number ∈ sel))

/-- The keys of the `dataByDriver` object in enumeration order: JavaScript
enumerates integer-valued keys in ascending numeric order, so the distinct
driver numbers of the filtered data are listed ascending. -/
def dataByDriverKeys (data : List TelemetrySample) (sel : List Nat) :
    List Nat :=
  (((filteredData data sel).map (·.driver_number)).dedup).insertionSort (· ≤ ·)

/-- `dataByDriver[driverNum]`: the filtered samples of one driver, in their
original order. -/
def groupFor (data : List TelemetrySample) (sel : List Nat) (dn : Nat) :
    List TelemetrySample :=
  (filteredData data sel).filter (fun d => decide (d.driver_number = dn))

/-- `driverMapping[driverNum] || `Driver ${driverNum}``: the mapped name is
used only when truthy (non-empty). -/
def driverName (mapping : Nat → Option String) (dn : Nat) : String :=
  match mapping dn with
  | some s => if s = "" then "Driver " ++ Nat.repr dn else s
  | none => "Driver " ++ Nat.repr dn

/-- One Plotly trace, restricted to the fields the specification talks
about.  `driver_number` records which `dataByDriver` key the trace was
built for (implicit in the source through the loop variable). -/
structure Trace where
  driver_number : Nat
  x : List Int
  y : List (Option Int)
  mode : String
  name : String
  color : String
  dash : String
  shape : String
deriving DecidableEq, Repr

/-- The trace object pushed for one driver, where `driverData` is the
driver's sorted sample list and `i` is the running style index. -/
def mkTrace (ch : Metric) (mapping : Nat → Option String) (dn : Nat)
    (driverData : List TelemetrySample) (i : Nat) : Trace :=
  { driver_number := dn
    x := driverData.map (·.date_ms)
    y := driverData.map (getMetric ch)
    mode := "lines"
    name := driverName mapping dn
    color := colors.getD (i % colors.length) ""
    dash := dash_styles.getD (i % dash_styles.length) ""
    shape := if ch = .n_gear then "hv" else "linear" }

/-- The `for (const driverNum in dataByDriver)` loop: `i` starts at 0 and
is incremented only when a trace is pushed; a driver whose every extracted
value is absent (`y.every(val => val === null || val === undefined)`) is
skipped.  The source's `driverData`/`y` locals are inlined. -/
def tracesGo (ch : Metric) (data : List TelemetrySample)
    (mapping : Nat → Option String) (sel : List Nat) :
    List Nat → Nat → List Trace
  | [], _ => []
  | dn :: rest, i =>
    if ((sortByDate (groupFor data sel dn)).map (getMetric ch)).all (fun v => v.isNone) then
      tracesGo ch data mapping sel rest i
    else
      mkTrace ch mapping dn (sortByDate (groupFor data sel dn)) i ::
        tracesGo ch data mapping sel rest (i + 1)

/-- Whether a driver survives the `y.every(val => val === null || ...)` skip
for a channel. -/
def hasUsableData (ch : Metric) (data : List TelemetrySample)
    (sel : List Nat) (dn : Nat) : Bool :=
  !((sortByDate (groupFor data sel dn)).map (getMetric ch)).all (fun v => v.isNone)

/-- `Array.prototype.join('-')`. -/
def joinDash : List String → String
  | [] => ""
  | [x] => x
  | x :: y :: xs => x ++ "-" ++ joinDash (y :: xs)

/-- `uirevision: `${sessionSelect.value}-${selectedDrivers.join('-')}-${metric}``. -/
def uirevisionToken (session : String) (sel : List Nat) (ch : Metric) : String :=
  session ++ "-" ++ joinDash (sel.map Nat.repr) ++ "-" ++ metricName ch

/-- The annotation text used when a channel has no traces. -/
def noDataText (ch : Metric) : String :=
  "No data available for " ++ cleanMetricName ch ++ " for the selected drivers."

/-- The layout object, restricted to the fields the specification talks
about. -/
structure Layout where
  titleText : String
  xaxisType : String
  yaxisTitle : String
  yaxisType : String
  yaxisRange : Option (Int × Int)
  hovermode : String
  showlegend : Bool
  legendOrientation : String
  uirevision : String
  annotations : List String
deriving DecidableEq, Repr

/-- The traces-plus-layout bundle handed to `Plotly.newPlot` for one
channel. -/
structure ChartSpec where
  traces : List Trace
  layout : Layout
deriving DecidableEq, Repr

/-- The body of `metrics.forEach(metric => ...)` in `plotTelemetry`: build
the traces and the layout for one channel. -/
def plotTelemetryChart (data : List TelemetrySample)
    (mapping : Nat → Option String) (sel : List Nat) (session : String)
    (ch : Metric) : ChartSpec :=
  let traces := tracesGo ch data mapping sel (dataByDriverKeys data sel) 0
  { traces := traces
    layout :=
      { titleText := (cleanMetricName ch).toUpper ++ " COMPARISON"
        xaxisType := "date"
        yaxisTitle := yaxisTitleFor ch
        yaxisType := if ch = .n_gear then "category" else "linear"
        yaxisRange := if ch = .throttle ∨ ch = .brake then some (0, 100) else none
        hovermode := "x unified"
        showlegend := true
        legendOrientation := "h"
        uirevision := uirevisionToken session sel ch
        annotations := if traces.isEmpty then [noDataText ch] else [] } }

/-- The response shape of `/api/telemetry`. -/
structure FetchResponse where
  data : List TelemetrySample
  driver_mapping : Nat → Option String

/-- The observable result of one click of the update button: the chart per
channel div (`none` = whatever was rendered before is untouched is kept by
passing the prior state through), plus the user-visible alert and console
signals. -/
structure ClickResult where
  charts : Metric → Option ChartSpec
  alerted : Bool
  warnedTruncation : Bool
  fetchFailed : Bool

/-- The `updateButton` click handler.  `fetch` abstracts
`fetchData('/api/telemetry?...')`, keyed by session and the requested
driver list; `none` is a failed fetch (or a response missing `data` or
`driver_mapping`).  The source's `driversToFetch` and warning locals are
inlined.  On success `plotTelemetry` replaces every channel's chart; on
failure the prior charts are returned unchanged. -/
def handleUpdateClick (session : String) (selectedDrivers : List Nat)
    (fetch : String → List Nat → Option FetchResponse)
    (prior : Metric → Option ChartSpec) : ClickResult :=
  if session = "" ∨ selectedDrivers.isEmpty then
    { charts := prior, alerted := true, warnedTruncation := false, fetchFailed := false }
  else
    match fetch session (selectedDrivers.take 2) with
    | some resp =>
      { charts := fun ch =>
          some (plotTelemetryChart resp.data resp.driver_mapping selectedDrivers session ch)
        alerted := false
        warnedTruncation := decide (selectedDrivers.length > 2)
        fetchFailed := false }
    | none =>
      { charts := prior, alerted := false,
        warnedTruncation := decide (selectedDrivers.length > 2), fetchFailed := true }

/-! ### Decimal-string machinery for the identity-token analysis

`Nat.repr` is the number-to-string conversion JavaScript performs inside
the template literal; the definitions below give it a structural normal
form so that the dash-joined token can be decoded. -/

/-- Decimal digit characters of `n`, most significant first. -/
def decDigits (n : Nat) : List Char :=
  if h : n < 10 then [Nat.digitChar n]
  else decDigits (n / 10) ++ [Nat.digitChar (n % 10)]
decreasing_by
  exact Nat.div_lt_self (by omega) (by omega)

/-- Numeric value of a decimal digit character. -/
def digitVal (c : Char) : Nat := c.toNat - 48

/-- `'-'.intercalate` on raw character lists, the shape of
`Array.prototype.join('-')`. -/
def charJoinDash : List (List Char) → List Char
  | [] => []
  | [x] => x
  | x :: y :: xs => x ++ '-' :: charJoinDash (y :: xs)

/-- The middle components of the identity token: the decimal driver
numbers, or a single empty component when no driver is selected (the JS
`join` of an empty array is the empty string). -/
def midParts (sel : List Nat) : List (List Char) :=
  if sel = [] then [[]] else sel.map (fun d => (Nat.repr d).data)

/-! ### Concrete fixtures used by counterexamples and witnesses -/

/-- Driver 1 with no throttle value but a speed value. -/
def sampleC1a : TelemetrySample :=
  { driver_number := 1, date_ms := 1000, speed := some 10 }

/-- Driver 2 with both a throttle and a speed value. -/
def sampleC1b : TelemetrySample :=
  { driver_number := 2, date_ms := 1000, throttle := some 50, speed := some 20 }

def dataC1 : List TelemetrySample := [sampleC1a, sampleC1b]

/-- The sample collection of the spec scenario
`[{driver:1,t:1000,throttle:80},{driver:1,t:2000,throttle:null},{driver:2,t:1000,throttle:50}]`. -/
def scenarioData : List TelemetrySample :=
  [{ driver_number := 1, date_ms := 1000, throttle := some 80 },
   { driver_number := 1, date_ms := 2000, throttle := none },
   { driver_number := 2, date_ms := 1000, throttle := some 50 }]

/-- A sample for driver 7 only; driver 5 has no samples at all. -/
def sampleD7 : TelemetrySample :=
  { driver_number := 7, date_ms := 1000, throttle := some 30, brake := some 0,
    speed := some 100, n_gear := some 3 }

/-- Driver 1 has only throttle data, driver 2 has only speed data. -/
def dataC3 : List TelemetrySample :=
  [{ driver_number := 1, date_ms := 0, throttle := some 10 },
   { driver_number := 2, date_ms := 0, speed := some 5 }]

def sampleW : TelemetrySample :=
  { driver_number := 1, date_ms := 0, throttle := some 1 }

def respW : FetchResponse := { data := [sampleW], driver_mapping := fun _ => none }

/-- A fetch collaborator that answers only the request for drivers `[1, 2]`. -/
def fetchW : String → List Nat → Option FetchResponse := fun _ ds =>
  if ds = [1, 2] then some respW else none

/-! ### Basic lemmas about the sort comparator and the stable sort -/

theorem sortByDate_perm (l : List TelemetrySample) : (sortByDate l).Perm l :=
  List.perm_insertionSort dateLe l

theorem sortByDate_sorted (l : List TelemetrySample) :
    List.Pairwise (fun a b => a.date_ms ≤ b.date_ms) (sortByDate l) :=
  List.sorted_insertionSort dateLe l

/-- Stability of the sort: for each fixed timestamp the subsequence of
samples carrying that timestamp is unchanged by sorting. -/
theorem sortByDate_filter_date (l : List TelemetrySample) (t : Int) :
    (sortByDate l).filter (fun s => decide (s.date_ms = t)) =
      l.filter (fun s => decide (s.date_ms = t)) := by
  set p : TelemetrySample → Bool := fun s => decide (s.date_ms = t) with hp
  have hself : (l.filter p).filter p = l.filter p :=
    List.filter_eq_self.mpr (fun a ha => (List.mem_filter.mp ha).2)
  have hpair : List.Pairwise dateLe (l.filter p) := by
    apply List.pairwise_of_forall_mem_list
    intro a ha b hb
    have ha' : a.date_ms = t := by
      have := (List.mem_filter.mp ha).2
      simpa [hp] using this
    have hb' : b.date_ms = t := by
      have := (List.mem_filter.mp hb).2
      simpa [hp] using this
    show a.date_ms ≤ b.date_ms
    rw [ha', hb']
  have hsub : (l.filter p).Sublist (sortByDate l) :=
    List.sublist_insertionSort hpair (List.filter_sublist l)
  have h1 : (l.filter p).Sublist ((sortByDate l).filter p) := by
    have := hsub.filter p
    rwa [hself] at this
  have hlen : ((sortByDate l).filter p).length = (l.filter p).length :=
    ((sortByDate_perm l).filter p).length_eq
  exact (h1.eq_of_length hlen.symm).symm

/-! ### Normal form of the trace-building loop -/

theorem tracesGo_eq (ch : Metric) (data : List TelemetrySample)
    (mapping : Nat → Option String) (sel : List Nat) (keys : List Nat) :
    ∀ i : Nat,
      tracesGo ch data mapping sel keys i =
        ((keys.filter (hasUsableData ch data sel)).enumFrom i).map
          (fun p => mkTrace ch mapping p.2 (sortByDate (groupFor data sel p.2)) p.1) := by
  induction keys with
  | nil => intro i; rfl
  | cons dn rest ih =>
    intro i
    by_cases h : hasUsableData ch data sel dn = true
    · have hall :
          ((sortByDate (groupFor data sel dn)).map (getMetric ch)).all (fun v => v.isNone)
            = false := by
        simpa [hasUsableData] using h
      simp [tracesGo, hall, List.filter_cons, h, List.enumFrom, ih]
    · have hall :
          ((sortByDate (groupFor data sel dn)).map (getMetric ch)).all (fun v => v.isNone)
            = true := by
        simpa [hasUsableData, Bool.not_eq_true'] using h
      simp [tracesGo, hall, List.filter_cons, h, ih]

theorem traces_def (data : List TelemetrySample) (mapping : Nat → Option String)
    (sel : List Nat) (session : String) (ch : Metric) :
    (plotTelemetryChart data mapping sel session ch).traces =
      (((dataByDriverKeys data sel).filter (hasUsableData ch data sel)).enumFrom 0).map
        (fun p => mkTrace ch mapping p.2 (sortByDate (groupFor data sel p.2)) p.1) := by
  simp [plotTelemetryChart, tracesGo_eq]

theorem traces_map_driver (data : List TelemetrySample) (mapping : Nat → Option String)
    (sel : List Nat) (session : String) (ch : Metric) :
    (plotTelemetryChart data mapping sel session ch).traces.map (fun t => t.driver_number) =
      (dataByDriverKeys data sel).filter (hasUsableData ch data sel) := by
  rw [traces_def, List.map_map]
  exact List.enumFrom_map_snd 0 _

/-! ### Membership characterisations -/

theorem mem_filteredData (data : List TelemetrySample) (sel : List Nat)
    (s : TelemetrySample) :
    s ∈ filteredData data sel ↔ s ∈ data ∧ s.driver_number ∈ sel := by
  simp [filteredData, List.mem_filter]

theorem mem_dataByDriverKeys (data : List TelemetrySample) (sel : List Nat) (dn : Nat) :
    dn ∈ dataByDriverKeys data sel ↔
      dn ∈ sel ∧ ∃ s ∈ data, s.driver_number = dn := by
  unfold dataByDriverKeys
  rw [(List.perm_insertionSort _ _).mem_iff, List.mem_dedup, List.mem_map]
  constructor
  · rintro ⟨s, hs, rfl⟩
    have h := (mem_filteredData data sel s).mp hs
    exact ⟨h.2, s, h.1, rfl⟩
  · rintro ⟨hsel, s, hs, rfl⟩
    exact ⟨s, (mem_filteredData data sel s).mpr ⟨hs, hsel⟩, rfl⟩

theorem mem_groupFor (data : List TelemetrySample) (sel : List Nat) (dn : Nat)
    (s : TelemetrySample) :
    s ∈ groupFor data sel dn ↔ s ∈ data ∧ s.driver_number = dn ∧ dn ∈ sel := by
  unfold groupFor
  rw [List.mem_filter, mem_filteredData]
  constructor
  · rintro ⟨⟨hs, hsel⟩, hdn⟩
    have hdn' : s.driver_number = dn := by simpa using hdn
    exact ⟨hs, hdn', hdn' ▸ hsel⟩
  · rintro ⟨hs, hdn, hsel⟩
    exact ⟨⟨hs, hdn ▸ hsel⟩, by simpa using hdn⟩

theorem hasUsableData_iff (ch : Metric) (data : List TelemetrySample)
    (sel : List Nat) (dn : Nat) :
    hasUsableData ch data sel dn = true ↔
      ∃ s ∈ data, s.driver_number = dn ∧ dn ∈ sel ∧ getMetric ch s ≠ none := by
  unfold hasUsableData
  rw [Bool.not_eq_true', List.all_eq_false]
  constructor
  · rintro ⟨v, hv, hnone⟩
    rcases List.mem_map.mp hv with ⟨s, hs, rfl⟩
    have hs' := ((sortByDate_perm _).mem_iff).mp hs
    rcases (mem_groupFor data sel dn s).mp hs' with ⟨hd, hdn, hsel⟩
    refine ⟨s, hd, hdn, hsel, ?_⟩
    simpa [Option.isNone_iff_eq_none] using hnone
  · rintro ⟨s, hd, hdn, hsel, hval⟩
    refine ⟨getMetric ch s, List.mem_map_of_mem _ ?_, ?_⟩
    · exact ((sortByDate_perm _).mem_iff).mpr
        ((mem_groupFor data sel dn s).mpr ⟨hd, hdn, hsel⟩)
    · simpa [Option.isNone_iff_eq_none] using hval

theorem mem_traces_driver (data : List TelemetrySample) (mapping : Nat → Option String)
    (sel : List Nat) (session : String) (ch : Metric) (dn : Nat) :
    dn ∈ (plotTelemetryChart data mapping sel session ch).traces.map (fun t => t.driver_number)
      ↔ dn ∈ sel ∧ ∃ s ∈ data, s.driver_number = dn ∧ getMetric ch s ≠ none := by
  rw [traces_map_driver, List.mem_filter, mem_dataByDriverKeys, hasUsableData_iff]
  constructor
  · rintro ⟨⟨hsel, -⟩, s, hs, hdn, -, hv⟩
    exact ⟨hsel, s, hs, hdn, hv⟩
  · rintro ⟨hsel, s, hs, hdn, hv⟩
    exact ⟨⟨hsel, s, hs, hdn⟩, s, hs, hdn, hsel, hv⟩

/-! ### Lemmas about decimal strings -/

theorem toDigitsCore_eq_decDigits (fuel : Nat) :
    ∀ (n : Nat) (acc : List Char), n < fuel →
      Nat.toDigitsCore 10 fuel n acc = decDigits n ++ acc := by
  induction fuel with
  | zero => intro n acc h; omega
  | succ f ih =>
    intro n acc h
    by_cases h10 : n / 10 = 0
    · have hlt : n < 10 := by omega
      have hmod : n % 10 = n := Nat.mod_eq_of_lt hlt
      show (if n / 10 = 0 then Nat.digitChar (n % 10) :: acc
        else Nat.toDigitsCore 10 f (n / 10) (Nat.digitChar (n % 10) :: acc)) = _
      rw [if_pos h10, decDigits, dif_pos hlt, hmod]
      rfl
    · have hge : ¬n < 10 := fun hc => h10 (Nat.div_eq_of_lt hc)
      have hdl : n / 10 < n := Nat.div_lt_self (by omega) (by omega)
      have hlt' : n / 10 < f := by omega
      show (if n / 10 = 0 then Nat.digitChar (n % 10) :: acc
        else Nat.toDigitsCore 10 f (n / 10) (Nat.digitChar (n % 10) :: acc)) = _
      rw [if_neg h10, ih (n / 10) _ hlt']
      conv_rhs => rw [decDigits, dif_neg hge]
      rw [List.append_assoc]
      rfl

theorem repr_data_eq_decDigits (n : Nat) : (Nat.repr n).data = decDigits n := by
  show (Nat.toDigitsCore 10 (n + 1) n []).asString.data = decDigits n
  rw [toDigitsCore_eq_decDigits (n + 1) n [] (Nat.lt_succ_self n), List.append_nil]
  rfl

theorem digitVal_digitChar (n : Nat) (h : n < 10) : digitVal (Nat.digitChar n) = n := by
  interval_cases n <;> decide

theorem digitChar_ne_dash (n : Nat) (h : n < 10) : Nat.digitChar n ≠ '-' := by
  interval_cases n <;> decide

theorem decDigits_foldl (n : Nat) : ∀ acc : Nat,
    (decDigits n).foldl (fun a c => 10 * a + digitVal c) acc =
      acc * 10 ^ (decDigits n).length + n := by
  induction n using Nat.strong_induction_on with
  | _ n ih =>
    intro acc
    by_cases h : n < 10
    · rw [decDigits, dif_pos h]
      simp [List.foldl, digitVal_digitChar n h]
      omega
    · have hdiv : n / 10 < n := Nat.div_lt_self (by omega) (by omega)
      rw [decDigits, dif_neg h, List.foldl_append, ih (n / 10) hdiv acc,
        List.length_append]
      have hmod : digitVal (Nat.digitChar (n % 10)) = n % 10 :=
        digitVal_digitChar _ (Nat.mod_lt _ (by omega))
      simp only [List.foldl, List.length_cons, List.length_nil, hmod]
      calc 10 * (acc * 10 ^ (decDigits (n / 10)).length + n / 10) + n % 10
          = acc * (10 ^ (decDigits (n / 10)).length * 10) +
              (10 * (n / 10) + n % 10) := by ring
        _ = acc * 10 ^ ((decDigits (n / 10)).length + (0 + 1)) + n := by
            have hdm : 10 * (n / 10) + n % 10 = n := by omega
            rw [Nat.zero_add, pow_succ, hdm]

theorem decDigits_injective : Function.Injective decDigits := by
  intro m n h
  have hm := decDigits_foldl m 0
  have hn := decDigits_foldl n 0
  rw [h] at hm
  rw [hm] at hn
  omega

theorem repr_injective : Function.Injective Nat.repr := by
  intro m n h
  apply decDigits_injective
  rw [← repr_data_eq_decDigits, ← repr_data_eq_decDigits, h]

theorem decDigits_ne_nil (n : Nat) : decDigits n ≠ [] := by
  by_cases h : n < 10
  · rw [decDigits, dif_pos h]; simp
  · rw [decDigits, dif_neg h]; simp

theorem dash_not_mem_decDigits (n : Nat) : '-' ∉ decDigits n := by
  induction n using Nat.strong_induction_on with
  | _ n ih =>
    by_cases h : n < 10
    · rw [decDigits, dif_pos h]
      simp [(digitChar_ne_dash n h).symm]
    · have hdiv : n / 10 < n := Nat.div_lt_self (by omega) (by omega)
      rw [decDigits, dif_neg h]
      intro hmem
      rcases List.mem_append.mp hmem with hmem | hmem
      · exact ih (n / 10) hdiv hmem
      · have := List.mem_singleton.mp hmem
        exact digitChar_ne_dash (n % 10) (Nat.mod_lt _ (by omega)) this.symm

theorem dash_not_mem_repr (n : Nat) : '-' ∉ (Nat.repr n).data := by
  rw [repr_data_eq_decDigits]
  exact dash_not_mem_decDigits n

/-! ### Lemmas about the dash-joined identity token -/

theorem joinDash_data : ∀ l : List String,
    (joinDash l).data = charJoinDash (l.map String.data)
  | [] => rfl
  | [x] => rfl
  | x :: y :: xs => by
    show (x ++ "-" ++ joinDash (y :: xs)).data = _
    rw [String.data_append, String.data_append, joinDash_data (y :: xs),
      List.append_assoc]
    rfl

theorem charJoinDash_append_single : ∀ (l : List (List Char)) (x : List Char),
    l ≠ [] → charJoinDash (l ++ [x]) = charJoinDash l ++ '-' :: x
  | [], x, h => absurd rfl h
  | [a], x, _ => rfl
  | a :: b :: t, x, _ => by
    show a ++ '-' :: charJoinDash (b :: t ++ [x])
        = (a ++ '-' :: charJoinDash (b :: t)) ++ '-' :: x
    rw [charJoinDash_append_single (b :: t) x (by simp), List.append_assoc]
    rfl

theorem charJoinDash_cons_append (a x : List Char) (t : List (List Char))
    (ht : t ≠ []) :
    charJoinDash (a :: t ++ [x]) = a ++ '-' :: (charJoinDash t ++ '-' :: x) := by
  cases t with
  | nil => exact absurd rfl ht
  | cons b t' =>
    show a ++ '-' :: charJoinDash (b :: t' ++ [x]) = _
    rw [charJoinDash_append_single (b :: t') x (by simp)]

theorem uirevisionToken_data (session : String) (sel : List Nat) (ch : Metric) :
    (uirevisionToken session sel ch).data =
      charJoinDash (session.data :: midParts sel ++ [(metricName ch).data]) := by
  cases sel with
  | nil =>
    show (session ++ "-" ++ joinDash (List.map Nat.repr []) ++ "-" ++ metricName ch).data = _
    rw [midParts, if_pos rfl]
    simp [joinDash, charJoinDash, String.data_append]
  | cons d rest =>
    show (session ++ "-" ++ joinDash (List.map Nat.repr (d :: rest)) ++ "-"
        ++ metricName ch).data = _
    rw [midParts, if_neg (by simp), charJoinDash_cons_append _ _ _ (by simp)]
    simp only [String.data_append, joinDash_data, List.map_map,
      show ("-" : String).data = ['-'] from rfl]
    simp [Function.comp_def, List.append_assoc]

theorem firstDash_split : ∀ (xs ys u v : List Char), '-' ∉ xs → '-' ∉ ys →
    xs ++ '-' :: u = ys ++ '-' :: v → xs = ys ∧ u = v
  | [], [], u, v, _, _, h => by simpa using h
  | [], b :: bs, u, v, _, hy, h => by
    simp only [List.nil_append, List.cons_append, List.cons.injEq] at h
    exact absurd (by rw [← h.1]; exact List.mem_cons_self _ _) hy
  | a :: as, [], u, v, hx, _, h => by
    simp only [List.nil_append, List.cons_append, List.cons.injEq] at h
    exact absurd (by rw [h.1]; exact List.mem_cons_self _ _) hx
  | a :: as, b :: bs, u, v, hx, hy, h => by
    simp only [List.cons_append, List.cons.injEq] at h
    obtain ⟨rfl, h2⟩ := h
    have hrec := firstDash_split as bs u v
      (fun hm => hx (List.mem_cons_of_mem a hm))
      (fun hm => hy (List.mem_cons_of_mem a hm)) h2
    exact ⟨by rw [hrec.1], hrec.2⟩

theorem charJoinDash_inj : ∀ (l₁ l₂ : List (List Char)),
    (∀ x ∈ l₁, '-' ∉ x) → (∀ x ∈ l₂, '-' ∉ x) →
    l₁ ≠ [] → l₂ ≠ [] → charJoinDash l₁ = charJoinDash l₂ → l₁ = l₂
  | [], _, _, _, h1, _, _ => absurd rfl h1
  | _ :: _, [], _, _, _, h2, _ => absurd rfl h2
  | [a], [b], _, _, _, _, h => by rw [show a = b from h]
  | [a], b :: c :: t, ha, _, _, _, h => by
    exfalso
    have hmem : '-' ∈ a := by
      rw [show a = b ++ '-' :: charJoinDash (c :: t) from h]
      exact List.mem_append_right _ (List.mem_cons_self _ _)
    exact ha a (List.mem_cons_self _ _) hmem
  | a :: c :: t, [b], _, hb, _, _, h => by
    exfalso
    have hmem : '-' ∈ b := by
      rw [show b = a ++ '-' :: charJoinDash (c :: t) from h.symm]
      exact List.mem_append_right _ (List.mem_cons_self _ _)
    exact hb b (List.mem_cons_self _ _) hmem
  | a :: c :: t, b :: d :: s, ha, hb, _, _, h => by
    obtain ⟨h1, h2⟩ := firstDash_split a b _ _
      (ha a (List.mem_cons_self _ _)) (hb b (List.mem_cons_self _ _)) h
    have hrec := charJoinDash_inj (c :: t) (d :: s)
      (fun x hx => ha x (List.mem_cons_of_mem _ hx))
      (fun x hx => hb x (List.mem_cons_of_mem _ hx))
      (by simp) (by simp) h2
    rw [h1, hrec]

theorem repr_data_injective :
    Function.Injective (fun n : Nat => (Nat.repr n).data) := by
  intro a b h
  exact repr_injective (String.ext h)

theorem repr_data_ne_nil (n : Nat) : (Nat.repr n).data ≠ [] := by
  rw [repr_data_eq_decDigits]
  exact decDigits_ne_nil n

theorem midParts_inj (sel₁ sel₂ : List Nat) (h : midParts sel₁ = midParts sel₂) :
    sel₁ = sel₂ := by
  unfold midParts at h
  by_cases h1 : sel₁ = [] <;> by_cases h2 : sel₂ = []
  · rw [h1, h2]
  · exfalso
    rw [if_pos h1, if_neg h2] at h
    cases sel₂ with
    | nil => exact h2 rfl
    | cons d rest =>
      simp only [List.map_cons, List.cons.injEq] at h
      exact repr_data_ne_nil d h.1.symm
  · exfalso
    rw [if_neg h1, if_pos h2] at h
    cases sel₁ with
    | nil => exact h1 rfl
    | cons d rest =>
      simp only [List.map_cons, List.cons.injEq] at h
      exact repr_data_ne_nil d h.1
  · rw [if_neg h1, if_neg h2] at h
    exact List.map_injective_iff.mpr repr_data_injective h

theorem midParts_dash_free (sel : List Nat) : ∀ x ∈ midParts sel, '-' ∉ x := by
  intro x hx
  unfold midParts at hx
  by_cases h : sel = []
  · rw [if_pos h] at hx
    simp only [List.mem_singleton] at hx
    subst hx
    simp
  · rw [if_neg h] at hx
    rcases List.mem_map.mp hx with ⟨d, -, rfl⟩
    exact dash_not_mem_repr d

theorem metricName_dash_free (ch : Metric) : '-' ∉ (metricName ch).data := by
  cases ch <;> decide

theorem metricName_injective (ch₁ ch₂ : Metric) (h : metricName ch₁ = metricName ch₂) :
    ch₁ = ch₂ := by
  cases ch₁ <;> cases ch₂ <;> first | rfl | exact absurd h (by decide)

theorem uirevisionToken_inj (s₁ s₂ : String) (sel₁ sel₂ : List Nat)
    (ch₁ ch₂ : Metric) (h₁ : '-' ∉ s₁.data) (h₂ : '-' ∉ s₂.data)
    (h : uirevisionToken s₁ sel₁ ch₁ = uirevisionToken s₂ sel₂ ch₂) :
    s₁ = s₂ ∧ sel₁ = sel₂ ∧ ch₁ = ch₂ := by
  have hdata := congrArg String.data h
  rw [uirevisionToken_data, uirevisionToken_data] at hdata
  have hparts := charJoinDash_inj _ _
    (by
      intro x hx
      rcases List.mem_cons.mp hx with hx | hx
      · rw [hx]; exact h₁
      · rcases List.mem_append.mp hx with hx | hx
        · exact midParts_dash_free sel₁ x hx
        · rw [List.mem_singleton.mp hx]
          exact metricName_dash_free ch₁)
    (by
      intro x hx
      rcases List.mem_cons.mp hx with hx | hx
      · rw [hx]; exact h₂
      · rcases List.mem_append.mp hx with hx | hx
        · exact midParts_dash_free sel₂ x hx
        · rw [List.mem_singleton.mp hx]
          exact metricName_dash_free ch₂)
    (by simp) (by simp) hdata
  injection hparts with hs hrest
  have hpair := List.append_inj' hrest (by simp)
  have hmid := hpair.1
  have hm := hpair.2
  have hm' : (metricName ch₁).data = (metricName ch₂).data := by simpa using hm
  exact ⟨String.ext hs, midParts_inj _ _ hmid,
    metricName_injective ch₁ ch₂ (String.ext hm')⟩

/-! ### Claim C1: style assignment -/

/-- C1, counterexample.  The claim says the same driver receives the same
color/dash on all four channel charts within one render pass, with rank
taken in selection order.  With selection `[2, 1]`, driver 1 lacking
throttle data and both drivers having speed data, driver 2's trace is
colored `#FF4500` on the throttle chart but `#1E90FF` on the speed chart:
the style index is the per-channel position among non-skipped drivers in
ascending driver-number order, not the rank in the selection. -/
theorem C1_counterexample :
    ((plotTelemetryChart dataC1 (fun _ => none) [2, 1] "9158" Metric.throttle).traces.map
        (fun t => (t.driver_number, t.color, t.dash)) = [(2, "#FF4500", "solid")]) ∧
    ((plotTelemetryChart dataC1 (fun _ => none) [2, 1] "9158" Metric.speed).traces.map
        (fun t => (t.driver_number, t.color, t.dash)) =
      [(1, "#FF4500", "solid"), (2, "#1E90FF", "dash")]) ∧
    ¬("#FF4500" : String) = "#1E90FF" :=
  ⟨by decide, by decide, by decide⟩

/-- C1 (amended).  Style assignment is deterministic: on each channel
chart the k-th trace (0-based, in the chart's trace order, which follows
ascending driver-number order over the drivers that are not skipped for
that channel) receives color `colors[k % colors.length]` and dash
`dash_styles[k % dash_styles.length]`; re-running the render with the same
data and selection yields the same styles, but the same driver may be
styled differently on different channel charts. -/
theorem C1_style_by_trace_position (data : List TelemetrySample)
    (mapping : Nat → Option String) (sel : List Nat) (session : String)
    (ch : Metric) (k : Nat)
    (h : k < (plotTelemetryChart data mapping sel session ch).traces.length) :
    ((plotTelemetryChart data mapping sel session ch).traces.get ⟨k, h⟩).color =
      colors.getD (k % colors.length) "" ∧
    ((plotTelemetryChart data mapping sel session ch).traces.get ⟨k, h⟩).dash =
      dash_styles.getD (k % dash_styles.length) "" := by
  have e := traces_def data mapping sel session ch
  simp only [List.get_eq_getElem]
  rw [List.getElem_of_eq e h, List.getElem_map, List.getElem_enumFrom]
  exact ⟨by simp [mkTrace], by simp [mkTrace]⟩

/-- C1 witness: the second speed trace of the counterexample input is
styled by position 1. -/
theorem C1_witness :
    ((plotTelemetryChart dataC1 (fun _ => none) [2, 1] "9158" Metric.speed).traces.get
        ⟨1, by decide⟩).color = colors.getD (1 % colors.length) "" ∧
    ((plotTelemetryChart dataC1 (fun _ => none) [2, 1] "9158" Metric.speed).traces.get
        ⟨1, by decide⟩).dash = dash_styles.getD (1 % dash_styles.length) "" :=
  C1_style_by_trace_position dataC1 (fun _ => none) [2, 1] "9158" .speed 1 (by decide)

/-! ### Claim C2: the two-driver cap -/

/-- C2.  When the selection is non-empty and the session non-blank, the
handler fetches only the first two drivers of the selection; provided the
fetch collaborator returns samples only for the requested drivers (its
documented contract), every trace on every chart belongs to one of the
first two selected drivers, and the truncation warning fires exactly when
more than two drivers were selected. -/
theorem C2_two_driver_cap (session : String) (sel : List Nat)
    (fetch : String → List Nat → Option FetchResponse)
    (prior : Metric → Option ChartSpec) (resp : FetchResponse)
    (hsession : ¬session = "") (hsel : ¬sel = [])
    (hfetch : fetch session (sel.take 2) = some resp)
    (hdata : ∀ s ∈ resp.data, s.driver_number ∈ sel.take 2) :
    ((handleUpdateClick session sel fetch prior).warnedTruncation = true ↔
      2 < sel.length) ∧
    (∀ ch spec, (handleUpdateClick session sel fetch prior).charts ch = some spec →
      ∀ tr ∈ spec.traces, tr.driver_number ∈ sel.take 2) := by
  have hcond : ¬(session = "" ∨ sel.isEmpty = true) := by
    rintro (hc | hc)
    · exact hsession hc
    · exact hsel (List.isEmpty_iff.mp hc)
  have hres : handleUpdateClick session sel fetch prior =
      { charts := fun ch =>
          some (plotTelemetryChart resp.data resp.driver_mapping sel session ch)
        alerted := false
        warnedTruncation := decide (sel.length > 2)
        fetchFailed := false } := by
    unfold handleUpdateClick
    rw [if_neg hcond, hfetch]
  rw [hres]
  constructor
  · simp
  · intro ch spec hspec tr htr
    have hspec' : spec = plotTelemetryChart resp.data resp.driver_mapping sel session ch :=
      (Option.some.inj hspec).symm
    have hin : tr.driver_number ∈ spec.traces.map (fun t => t.driver_number) :=
      List.mem_map_of_mem _ htr
    rw [hspec', mem_traces_driver] at hin
    obtain ⟨-, s, hs, hdn, -⟩ := hin
    rw [← hdn]
    exact hdata s hs

/-- C2 witness: with selection `[1, 2, 3]` the truncation warning fires. -/
theorem C2_witness :
    (handleUpdateClick "s" [1, 2, 3] fetchW (fun _ => none)).warnedTruncation = true :=
  (C2_two_driver_cap "s" [1, 2, 3] fetchW (fun _ => none) respW (by decide) (by decide)
    rfl (by decide)).1.mpr (by decide)

/-! ### Claim C3: drivers per channel -/

/-- C3.  Per channel, the number of distinct drivers with a trace equals
the number of distinct selected drivers having at least one non-absent
sample value for that channel; a driver is traced on a channel exactly
when it is selected and has a usable sample there, so an all-absent driver
is omitted from that channel only. -/
theorem C3_drivers_per_channel (data : List TelemetrySample)
    (mapping : Nat → Option String) (sel : List Nat) (session : String)
    (ch : Metric) :
    (((plotTelemetryChart data mapping sel session ch).traces.map
        (fun t => t.driver_number)).toFinset.card =
      ((data.filter (fun s => decide (s.driver_number ∈ sel) &&
          !(getMetric ch s).isNone)).map (fun s => s.driver_number)).toFinset.card) ∧
    (∀ dn : Nat,
      dn ∈ (plotTelemetryChart data mapping sel session ch).traces.map
          (fun t => t.driver_number) ↔
        dn ∈ sel ∧ ∃ s ∈ data, s.driver_number = dn ∧ getMetric ch s ≠ none) := by
  constructor
  · apply congrArg Finset.card
    ext dn
    rw [List.mem_toFinset, List.mem_toFinset, mem_traces_driver]
    constructor
    · rintro ⟨hsel, s, hs, hdn, hv⟩
      refine List.mem_map.mpr ⟨s, List.mem_filter.mpr ⟨hs, ?_⟩, hdn⟩
      have hv' : (getMetric ch s).isNone = false := by
        rcases hval : getMetric ch s with - | v
        · exact absurd hval hv
        · rfl
      simp [hdn ▸ hsel, hv']
    · intro hmem
      rcases List.mem_map.mp hmem with ⟨s, hsf, hdn⟩
      rcases List.mem_filter.mp hsf with ⟨hs, hcond⟩
      rcases Bool.and_eq_true_iff.mp hcond with ⟨hsel, hnone⟩
      refine ⟨hdn ▸ of_decide_eq_true hsel, s, hs, hdn, ?_⟩
      intro hc
      rw [hc] at hnone
      exact Bool.false_ne_true (by simpa using hnone.symm)
  · intro dn
    exact mem_traces_driver data mapping sel session ch dn

/-- C3 witness: for the two-driver mixed-channel fixture the counts agree
on the throttle channel. -/
theorem C3_witness :
    ((plotTelemetryChart dataC3 (fun _ => none) [1, 2] "s" Metric.throttle).traces.map
        (fun t => t.driver_number)).toFinset.card =
      ((dataC3.filter (fun s => decide (s.driver_number ∈ ([1, 2] : List Nat)) &&
          !(getMetric Metric.throttle s).isNone)).map
        (fun s => s.driver_number)).toFinset.card :=
  (C3_drivers_per_channel dataC3 (fun _ => none) [1, 2] "s" .throttle).1

/-! ### Claim C4: the driver partitioner -/

/-- C4.  The per-driver series fed to the trace builder is a permutation
of the samples filtered to the selection and grouped by driver, sorted
non-decreasing by timestamp, and stable: samples sharing a timestamp keep
their original relative order. -/
theorem C4_partitioner_sorted_stable (data : List TelemetrySample) (sel : List Nat)
    (dn : Nat) :
    (sortByDate (groupFor data sel dn)).Perm
      ((data.filter (fun s => decide (s.driver_number ∈ sel))).filter
        (fun s => decide (s.driver_number = dn))) ∧
    List.Pairwise (fun a b => a.date_ms ≤ b.date_ms) (sortByDate (groupFor data sel dn)) ∧
    (∀ t : Int,
      (sortByDate (groupFor data sel dn)).filter (fun s => decide (s.date_ms = t)) =
        (groupFor data sel dn).filter (fun s => decide (s.date_ms = t))) :=
  ⟨sortByDate_perm _, sortByDate_sorted _, fun t => sortByDate_filter_date _ t⟩

/-- C4 witness: the scenario data for driver 1, selection `[1, 2]`. -/
theorem C4_witness :
    (sortByDate (groupFor scenarioData [1, 2] 1)).filter
        (fun s => decide (s.date_ms = 1000)) =
      (groupFor scenarioData [1, 2] 1).filter (fun s => decide (s.date_ms = 1000)) :=
  (C4_partitioner_sorted_stable scenarioData [1, 2] 1).2.2 1000

/-! ### Claim C5: absent values pass through as gaps -/

/-- C5.  Every trace's y-values are exactly the channel values of the
driver's sorted samples, absent values preserved as `none` (never coerced
to zero or dropped), and the x-values the corresponding timestamps; on the
spec scenario the throttle chart has two traces and driver 1's y-sequence
is `[some 80, none]`. -/
theorem C5_absent_passthrough (data : List TelemetrySample)
    (mapping : Nat → Option String) (sel : List Nat) (session : String)
    (ch : Metric) :
    (∀ tr ∈ (plotTelemetryChart data mapping sel session ch).traces,
      tr.y = (sortByDate (groupFor data sel tr.driver_number)).map (getMetric ch) ∧
      tr.x = (sortByDate (groupFor data sel tr.driver_number)).map (fun s => s.date_ms)) ∧
    ((plotTelemetryChart scenarioData (fun _ => none) [1, 2] "s" Metric.throttle).traces.map
        (fun tr => (tr.driver_number, tr.y)) =
      [(1, [some 80, none]), (2, [some 50])]) := by
  constructor
  · intro tr htr
    rw [traces_def] at htr
    rcases List.mem_map.mp htr with ⟨p, -, rfl⟩
    exact ⟨rfl, rfl⟩
  · decide

/-- C5 witness: the first throttle trace of the scenario input. -/
theorem C5_witness :
    ((plotTelemetryChart scenarioData (fun _ => none) [1, 2] "s" Metric.throttle).traces.get
        ⟨0, by decide⟩).y =
      (sortByDate (groupFor scenarioData [1, 2]
        ((plotTelemetryChart scenarioData (fun _ => none) [1, 2] "s"
          Metric.throttle).traces.get ⟨0, by decide⟩).driver_number)).map
        (getMetric Metric.throttle) :=
  ((C5_absent_passthrough scenarioData (fun _ => none) [1, 2] "s" .throttle).1 _
    (List.get_mem _ _ (by decide))).1

/-! ### Claim C6: y-axis typing and ranges -/

/-- C6.  For every input, throttle and brake charts get a linear y-axis
fixed to `[0, 100]`, the gear chart a categorical y-axis with no fixed
range, and the speed chart a linear y-axis with no fixed range. -/
theorem C6_yaxis_per_channel (data : List TelemetrySample)
    (mapping : Nat → Option String) (sel : List Nat) (session : String) :
    ((plotTelemetryChart data mapping sel session .throttle).layout.yaxisType = "linear" ∧
      (plotTelemetryChart data mapping sel session .throttle).layout.yaxisRange =
        some (0, 100)) ∧
    ((plotTelemetryChart data mapping sel session .brake).layout.yaxisType = "linear" ∧
      (plotTelemetryChart data mapping sel session .brake).layout.yaxisRange =
        some (0, 100)) ∧
    ((plotTelemetryChart data mapping sel session .n_gear).layout.yaxisType = "category" ∧
      (plotTelemetryChart data mapping sel session .n_gear).layout.yaxisRange = none) ∧
    ((plotTelemetryChart data mapping sel session .speed).layout.yaxisType = "linear" ∧
      (plotTelemetryChart data mapping sel session .speed).layout.yaxisRange = none) :=
  ⟨⟨rfl, rfl⟩, ⟨rfl, rfl⟩, ⟨rfl, rfl⟩, ⟨rfl, rfl⟩⟩

/-! ### Claim C7: the re-render identity token -/

/-- C7, counterexample.  Two renders differing in both session and driver
list can produce the identical token, because the token is a dash-joined
string: session `9158` with drivers `[1, 2]` collides with session
`9158-1` with drivers `[2]`. -/
theorem C7_counterexample :
    (plotTelemetryChart [] (fun _ => none) [1, 2] "9158" Metric.throttle).layout.uirevision =
      (plotTelemetryChart [] (fun _ => none) [2] "9158-1" Metric.throttle).layout.uirevision ∧
    ¬("9158" : String) = "9158-1" ∧ ¬([1, 2] : List Nat) = [2] :=
  ⟨by decide, by decide, by decide⟩

/-- C7 (amended).  The identity token is a function of exactly the session
identifier, the selected driver numbers in order, and the channel name;
renders with equal inputs produce identical ChartSpecs and tokens, and,
provided the session identifiers contain no dash character, distinct
(session, selection, channel) triples produce distinct tokens (without
that proviso the dash-joined encoding can collide). -/
theorem C7_identity_token (s₁ s₂ : String) (sel₁ sel₂ : List Nat)
    (ch₁ ch₂ : Metric) (h₁ : '-' ∉ s₁.data) (h₂ : '-' ∉ s₂.data) :
    (uirevisionToken s₁ sel₁ ch₁ = uirevisionToken s₂ sel₂ ch₂ ↔
      s₁ = s₂ ∧ sel₁ = sel₂ ∧ ch₁ = ch₂) ∧
    (∀ (data : List TelemetrySample) (mapping : Nat → Option String),
      s₁ = s₂ → sel₁ = sel₂ → ch₁ = ch₂ →
        plotTelemetryChart data mapping sel₁ s₁ ch₁ =
          plotTelemetryChart data mapping sel₂ s₂ ch₂) ∧
    (∀ (data : List TelemetrySample) (mapping : Nat → Option String),
      (plotTelemetryChart data mapping sel₁ s₁ ch₁).layout.uirevision =
        uirevisionToken s₁ sel₁ ch₁) := by
  refine ⟨⟨fun h => uirevisionToken_inj s₁ s₂ sel₁ sel₂ ch₁ ch₂ h₁ h₂ h, ?_⟩, ?_, ?_⟩
  · rintro ⟨rfl, rfl, rfl⟩
    rfl
  · intro data mapping hs hsel hch
    subst hs; subst hsel; subst hch
    rfl
  · intro data mapping
    rfl

/-- C7 witness: identical inputs reuse the identical token. -/
theorem C7_witness :
    uirevisionToken "9158" [1, 2] Metric.throttle =
      uirevisionToken "9158" [1, 2] Metric.throttle :=
  (C7_identity_token "9158" "9158" [1, 2] [1, 2] .throttle .throttle (by decide)
    (by decide)).1.mpr ⟨rfl, rfl, rfl⟩

/-! ### Claim C8: the empty channel is a rendered outcome -/

/-- C8.  A channel whose trace list is empty still renders, with a no-data
annotation; a selection of one driver with no samples at all yields zero
traces and the annotation on every one of the four channels. -/
theorem C8_empty_channel (data : List TelemetrySample)
    (mapping : Nat → Option String) (sel : List Nat) (session : String)
    (ch : Metric)
    (h : (plotTelemetryChart data mapping sel session ch).traces = []) :
    (plotTelemetryChart data mapping sel session ch).layout.annotations =
      [noDataText ch] ∧
    (∀ ch' : Metric,
      (plotTelemetryChart [sampleD7] (fun _ => none) [5] "s" ch').traces = [] ∧
      (plotTelemetryChart [sampleD7] (fun _ => none) [5] "s" ch').layout.annotations =
        [noDataText ch']) := by
  constructor
  · have hdef : (plotTelemetryChart data mapping sel session ch).layout.annotations =
        (if (plotTelemetryChart data mapping sel session ch).traces.isEmpty
          then [noDataText ch] else []) := rfl
    rw [hdef, h]
    rfl
  · intro ch'
    cases ch' <;> exact ⟨by decide, by decide⟩

/-- C8 witness: the empty throttle chart of the no-sample selection
carries the annotation. -/
theorem C8_witness :
    (plotTelemetryChart [sampleD7] (fun _ => none) [5] "s" Metric.throttle).layout.annotations =
      [noDataText Metric.throttle] :=
  (C8_empty_channel [sampleD7] (fun _ => none) [5] "s" .throttle (by decide)).1

/-! ### Claim C9: fetch failure leaves the charts untouched -/

/-- C9.  When the telemetry fetch fails, the handler renders nothing: the
prior chart of every channel is left exactly as it was, and the failure is
surfaced as the fetch-failed console signal. -/
theorem C9_fetch_failure (session : String) (sel : List Nat)
    (fetch : String → List Nat → Option FetchResponse)
    (prior : Metric → Option ChartSpec)
    (hsession : ¬session = "") (hsel : ¬sel = [])
    (hfail : fetch session (sel.take 2) = none) :
    (handleUpdateClick session sel fetch prior).charts = prior ∧
    (handleUpdateClick session sel fetch prior).fetchFailed = true := by
  have hcond : ¬(session = "" ∨ sel.isEmpty = true) := by
    rintro (hc | hc)
    · exact hsession hc
    · exact hsel (List.isEmpty_iff.mp hc)
  have hres : handleUpdateClick session sel fetch prior =
      { charts := prior
        alerted := false
        warnedTruncation := decide (sel.length > 2)
        fetchFailed := true } := by
    unfold handleUpdateClick
    rw [if_neg hcond, hfail]
  rw [hres]
  exact ⟨rfl, rfl⟩

/-- C9 witness: a failing fetch leaves a prior chart state unchanged. -/
theorem C9_witness :
    (handleUpdateClick "s" [1] (fun _ _ => none) (fun _ => none)).charts =
      (fun _ => none) ∧
    (handleUpdateClick "s" [1] (fun _ _ => none) (fun _ => none)).fetchFailed = true :=
  C9_fetch_failure "s" [1] (fun _ _ => none) (fun _ => none) (by decide) (by decide) rfl

/-! ### Claim C10: falsy mapped names fall back to the synthesized label -/

/-- C10.  A mapped display name is used only when non-empty: an empty
(falsy) mapped name produces the synthesized `Driver <id>` label exactly
as an absent mapping does, and every trace is named through this rule. -/
theorem C10_falsy_mapped_name (data : List TelemetrySample)
    (mapping : Nat → Option String) (sel : List Nat) (session : String)
    (ch : Metric) (dn : Nat) :
    (mapping dn = some "" → driverName mapping dn = "Driver " ++ Nat.repr dn) ∧
    (mapping dn = none → driverName mapping dn = "Driver " ++ Nat.repr dn) ∧
    (∀ s, mapping dn = some s → ¬s = "" → driverName mapping dn = s) ∧
    (∀ tr ∈ (plotTelemetryChart data mapping sel session ch).traces,
      tr.name = driverName mapping tr.driver_number) := by
  refine ⟨fun h => ?_, fun h => ?_, fun s h hs => ?_, fun tr htr => ?_⟩
  · simp [driverName, h]
  · simp [driverName, h]
  · simp [driverName, h, hs]
  · rw [traces_def] at htr
    rcases List.mem_map.mp htr with ⟨p, -, rfl⟩
    rfl

/-- C10 witness: a driver mapped to the empty string gets the synthesized
label. -/
theorem C10_witness :
    driverName (fun d => if d = 1 then some "" else none) 1 = "Driver " ++ Nat.repr 1 :=
  (C10_falsy_mapped_name [] (fun d => if d = 1 then some "" else none) [] "s"
    .throttle 1).1 rfl

end F1Telemetry
